import Mathlib

/-!
# vuvuzela client: round correlation and dispatch

A shallow embedding of `cmd/vuvuzela-client/client.go`.

* The `Client` struct becomes a record that is passed explicitly; every method takes the
  client and gives back an `Outcome`: the client afterwards, the effects it performed in
  program order, and how the call ended (returned, panicked, or is blocked in a read).
* Everything the file calls but does not define (the handler's methods, the envelope codec,
  the websocket connection, the dialer) is an oracle in `Env`; each call is recorded as an
  `Event`, and so is each write to a field of the client.
* One method runs at a time: `sync.Mutex` (`Lock`/`Unlock`) has no effect on such a run and is
  not represented, and a `go f(x)` statement is recorded as an event, its body is not run.
* `uint32` round numbers are natural numbers; the file does no arithmetic on them.
* A client comes from `NewClient`, so its map is never the nil map. Handler methods are
  outside calls: they answer and do not themselves call back into the client.
-/

namespace Vuvuzela

/-- Identity of a non-nil value of the interface type `ConvoHandler`. -/
abbrev HandlerId := Nat

/-- A value of the interface type `ConvoHandler`; `none` is the nil interface. -/
abbrev ConvoHandler := Option HandlerId

/-- Identity of a non-nil `*websocket.Conn`. -/
abbrev ConnId := Nat

/-- The type `vuvuzela.ConvoRequest`, declared outside this file; the client never looks
inside a request, so its content is an uninterpreted payload. -/
structure ConvoRequest where
  payload : List Nat
  deriving DecidableEq, Repr

/-- The type `vuvuzela.ConvoResponse`, declared outside this file; the client reads its
field `Round` only. -/
structure ConvoResponse where
  Round : Nat
  payload : List Nat
  deriving DecidableEq, Repr

/-- The type `vuvuzela.Envelope`, declared outside this file and never inspected here. -/
structure Envelope where
  data : List Nat
  deriving DecidableEq, Repr

/-- A value of the empty interface type handed to `Send`: the `*vuvuzela.ConvoRequest` a handler
returned (possibly a nil pointer), or a value of any other type. -/
inductive Value where
  | convoRequest (p : Option ConvoRequest)
  | other (tag : Nat)
  deriving DecidableEq, Repr

/-- A value returned by `Envelope.Open`, by dynamic type, as the type switch of
`handleResponse` sees it. `errorText` is what `v.Error()` returns. -/
inductive Msg where
  | badRequestError (errorText : String)
  | announceConvoRound (Round : Nat)
  | convoResponse (r : ConvoResponse)
  | other (tag : Nat)
  deriving DecidableEq, Repr

/-- The map type `map[uint32]ConvoHandler`: a finite map with at most one entry per key.
A stored value may be the nil interface (`some none` on lookup). -/
abbrev RoundHandlers := Finmap (fun _ : Nat => ConvoHandler)

/-- The struct `Client` (the embedded mutex apart). `ws = none` is the nil pointer. -/
structure Client where
  EntryServer : String
  ws : Option ConnId
  roundHandlers : RoundHandlers
  convoHandler : ConvoHandler

/-- Log calls of the file: `Debug`, `Error` and `Printf`. -/
inductive Level where
  | debug
  | error
  | printf
  deriving DecidableEq, Repr

/-- A value of a log field. -/
inductive FieldVal where
  | bool (b : Bool)
  | str (s : String)
  | num (n : Nat)
  deriving DecidableEq, Repr

/-- One effect of a run, as the source statement that performs it. -/
inductive Event where
  /-- Statement `log.WithFields(fields).Debug/Error(msg)` or `log.Printf` -/
  | log (level : Level) (fields : List (String × FieldVal)) (msg : String)
  /-- Statement `c.roundHandlers[round] = h` -/
  | mapWrite (round : Nat) (h : ConvoHandler)
  /-- Statement `delete(c.roundHandlers, round)` -/
  | mapDelete (round : Nat)
  /-- Statement `c.convoHandler = h` -/
  | setConvoHandler (h : ConvoHandler)
  /-- Statement `c.ws = ws` -/
  | setWs (conn : ConnId)
  /-- Statement `h.NextConvoRequest(round)` -/
  | callNextConvoRequest (h : HandlerId) (round : Nat)
  /-- Statement `h.HandleConvoResponse(r)` -/
  | callHandleConvoResponse (h : HandlerId) (r : ConvoResponse)
  /-- Statement `vuvuzela.Envelop(v)` -/
  | envelop (v : Value)
  /-- Statement `dialer.Dial(addr, nil)` -/
  | dial (addr : String)
  /-- Statement `conn.SetWriteDeadline(..)` -/
  | setWriteDeadline (conn : ConnId)
  /-- Statement `conn.WriteJSON(e)` -/
  | writeJSON (conn : ConnId) (e : Envelope)
  /-- Statement `conn.ReadJSON(&e)` -/
  | readJSON (conn : ConnId)
  /-- Statement `conn.Close()` -/
  | close (conn : ConnId)
  /-- Statement `go c.readLoop()` -/
  | goReadLoop
  /-- Statement `go c.handleResponse(v)` -/
  | goHandleResponse (v : Msg)
  deriving DecidableEq, Repr

/-- What the code outside this file answers when called. An error is its text;
for `WriteJSON`, `none` is the nil error. -/
structure Env where
  NextConvoRequest : HandlerId → Nat → Option ConvoRequest
  Envelop : Value → Except String Envelope
  Open : Envelope → Except String Msg
  Dial : String → Except String ConnId
  WriteJSON : ConnId → Envelope → Option String

/-- How a call ended. `panicked` is a nil dereference; `blocked` is a read still waiting
for input. -/
inductive Completion (α : Type) where
  | returned (a : α)
  | panicked
  | blocked
  deriving DecidableEq, Repr

/-- The client after a call, the effects of the call in program order, and how it ended. -/
structure Outcome (α : Type) where
  client : Client
  trace : List Event
  result : Completion α

/-- Sequencing: run `k` after a call that returned; a call that did not return ends the run. -/
def Outcome.andThen {α β : Type} (o : Outcome α) (k : Client → α → Outcome β) : Outcome β :=
  match o.result with
  | .returned a =>
      let o2 := k o.client a
      { client := o2.client, trace := o.trace ++ o2.trace, result := o2.result }
  | .panicked => { client := o.client, trace := o.trace, result := .panicked }
  | .blocked => { client := o.client, trace := o.trace, result := .blocked }

/-- Put effects that happened first in front of the rest of a run. -/
def Outcome.after {α : Type} (evs : List Event) (o : Outcome α) : Outcome α :=
  { client := o.client, trace := evs ++ o.trace, result := o.result }

/-- Source: `NewClient`. -/
def NewClient (entryServer : String) : Client :=
  { EntryServer := entryServer, ws := none, roundHandlers := ∅, convoHandler := none }

/-- Source: `Client.SetConvoHandler`. -/
def SetConvoHandler (c : Client) (convo : ConvoHandler) : Outcome Unit :=
  { client := { c with convoHandler := convo },
    trace := [.setConvoHandler convo],
    result := .returned () }

/-- Source: `Client.Connect`. The returned value is the error (`none` is nil). -/
def Connect (env : Env) (c : Client) : Outcome (Option String) :=
  match c.convoHandler with
  | none => { client := c, trace := [], result := .returned (some "no convo handler") }
  | some _ =>
      let wsaddr := c.EntryServer ++ "/ws"
      match env.Dial wsaddr with
      | .error err => { client := c, trace := [.dial wsaddr], result := .returned (some err) }
      | .ok ws =>
          { client := { c with ws := some ws },
            trace := [.dial wsaddr, .setWs ws, .goReadLoop],
            result := .returned none }

/-- Source: `Client.Close`. Calling `Close` on the nil connection dereferences nil. -/
def Close (c : Client) : Outcome Unit :=
  match c.ws with
  | none => { client := c, trace := [], result := .panicked }
  | some conn => { client := c, trace := [.close conn], result := .returned () }

/-- Source: `Client.Send`. -/
def Send (env : Env) (c : Client) (v : Value) : Outcome Unit :=
  match env.Envelop v with
  | .error err =>
      { client := c,
        trace := [.envelop v,
                  .log .error [("bug", .bool true), ("call", .str "Envelop")] err],
        result := .returned () }
  | .ok e =>
      match c.ws with
      | none => { client := c, trace := [.envelop v], result := .panicked }
      | some conn =>
          match env.WriteJSON conn e with
          | some err =>
              Outcome.after
                [.envelop v, .setWriteDeadline conn, .writeJSON conn e,
                 .log .debug [("call", .str "WriteJSON")] err]
                (Close c)
          | none =>
              { client := c,
                trace := [.envelop v, .setWriteDeadline conn, .writeJSON conn e],
                result := .returned () }

/-- Source: `Client.nextConvoRequest`. The map write comes first; the method call on a nil
handler panics after it. -/
def nextConvoRequest (env : Env) (c : Client) (round : Nat) : Outcome (Option ConvoRequest) :=
  let c1 := { c with roundHandlers := c.roundHandlers.insert round c.convoHandler }
  match c1.convoHandler with
  | none => { client := c1, trace := [.mapWrite round c.convoHandler], result := .panicked }
  | some h =>
      { client := c1,
        trace := [.mapWrite round c.convoHandler, .callNextConvoRequest h round],
        result := .returned (env.NextConvoRequest h round) }

/-- Source: `Client.deliverConvoResponse`. `convo, ok := c.roundHandlers[r.Round]` is the
lookup: `none` is `ok = false`, `some none` is a stored nil handler. -/
def deliverConvoResponse (c : Client) (r : ConvoResponse) : Outcome Unit :=
  let found := c.roundHandlers.lookup r.Round
  let c1 := { c with roundHandlers := c.roundHandlers.erase r.Round }
  match found with
  | none =>
      { client := c1,
        trace := [.mapDelete r.Round,
                  .log .error [("round", .num r.Round)] "round not found"],
        result := .returned () }
  | some none => { client := c1, trace := [.mapDelete r.Round], result := .panicked }
  | some (some convo) =>
      { client := c1,
        trace := [.mapDelete r.Round, .callHandleConvoResponse convo r],
        result := .returned () }

/-- Source: `Client.handleResponse`. The type switch has no default case. -/
def handleResponse (env : Env) (c : Client) (v : Msg) : Outcome Unit :=
  match v with
  | .badRequestError errorText =>
      { client := c,
        trace := [.log .printf [] ("bad request error: " ++ errorText)],
        result := .returned () }
  | .announceConvoRound round =>
      (nextConvoRequest env c round).andThen (fun c1 req => Send env c1 (.convoRequest req))
  | .convoResponse r => deliverConvoResponse c r
  | .other _ => { client := c, trace := [], result := .returned () }

/-- Source: `Client.readLoop`, run against the results of the successive `ReadJSON` calls
(`.error` is a read failure). The value returned is the part of the input not read. When
the input runs out the loop is blocked in `ReadJSON`. -/
def readLoop (env : Env) (c : Client) :
    List (Except String Envelope) → Outcome (List (Except String Envelope))
  | [] =>
      match c.ws with
      | none => { client := c, trace := [], result := .panicked }
      | some conn => { client := c, trace := [.readJSON conn], result := .blocked }
  | rd :: rest =>
      match c.ws with
      | none => { client := c, trace := [], result := .panicked }
      | some conn =>
          match rd with
          | .error err =>
              Outcome.after [.readJSON conn, .log .debug [("call", .str "ReadJSON")] err]
                ((Close c).andThen (fun c1 _ =>
                  { client := c1, trace := [], result := .returned rest }))
          | .ok e =>
              match env.Open e with
              | .error err =>
                  Outcome.after
                    [.readJSON conn, .log .error [("call", .str "Envelope.Open")] err]
                    (readLoop env c rest)
              | .ok v =>
                  Outcome.after [.readJSON conn, .goHandleResponse v] (readLoop env c rest)

/-- A run of claims: for each pair `(round, h)` in turn, `SetConvoHandler(h)` and then
`nextConvoRequest(round)`, so that `h` is the handler configured when `round` is claimed. -/
def claimRounds (env : Env) (c : Client) : List (Nat × HandlerId) → Outcome Unit
  | [] => { client := c, trace := [], result := .returned () }
  | (round, h) :: rest =>
      ((SetConvoHandler c (some h)).andThen (fun c1 _ => nextConvoRequest env c1 round)).andThen
        (fun c2 _ => claimRounds env c2 rest)

/-- What `readLoop` does with one envelope it has read: start the routing of the message it
opens to. -/
def dispatched (env : Env) (e : Envelope) : Option Msg :=
  match env.Open e with
  | .ok v => some v
  | .error _ => none

/-- What `readLoop` does with one envelope it has read: report the failure to open it. -/
def openFailure (env : Env) (e : Envelope) : Option (Level × List (String × FieldVal) × String) :=
  match env.Open e with
  | .ok _ => none
  | .error err => some (.error, [("call", .str "Envelope.Open")], err)

/-! ## Concrete environments and clients -/

/-- An environment in which every outside call succeeds. -/
def envOk : Env :=
  { NextConvoRequest := fun h round => some { payload := [h, round] },
    Envelop := fun v =>
      match v with
      | .convoRequest (some req) => .ok { data := 1 :: req.payload }
      | .convoRequest none => .ok { data := [0] }
      | .other tag => .ok { data := [2, tag] },
    Open := fun e =>
      match e.data with
      | [10, round] => .ok (.announceConvoRound round)
      | 11 :: round :: payload => .ok (.convoResponse { Round := round, payload := payload })
      | [12] => .ok (.badRequestError "bad request")
      | _ => .error "unknown message type",
    Dial := fun _ => .ok 1,
    WriteJSON := fun _ _ => none }

/-- As `envOk`, but every write to the connection fails. -/
def envWriteFails : Env :=
  { envOk with WriteJSON := fun _ _ => some "i/o timeout" }

/-- As `envOk`, but enveloping fails for the values that are not conversation requests. -/
def envEnvelopFails : Env :=
  { envOk with
    Envelop := fun v =>
      match v with
      | .other _ => .error "json: unsupported type"
      | w => envOk.Envelop w }

/-- A connected client with handler 4 configured and a stale entry for round 7 under
another handler, 9. -/
def clientStale : Client :=
  { EntryServer := "ws://entry", ws := some 1,
    roundHandlers := (∅ : RoundHandlers).insert 7 (some 9), convoHandler := some 4 }

/-- A connected client with handler 4 configured and an empty registry. -/
def clientConnected : Client :=
  { EntryServer := "ws://entry", ws := some 1, roundHandlers := ∅, convoHandler := some 4 }

/-! ## Reading a trace -/

/-- The calls of `HandleConvoResponse` in a trace: which handler, with which response. -/
def handleCalls (t : List Event) : List (HandlerId × ConvoResponse) :=
  t.filterMap (fun e => match e with
    | .callHandleConvoResponse h r => some (h, r)
    | _ => none)

/-- The calls of `NextConvoRequest` in a trace: which handler, for which round. -/
def nextCalls (t : List Event) : List (HandlerId × Nat) :=
  t.filterMap (fun e => match e with
    | .callNextConvoRequest h round => some (h, round)
    | _ => none)

/-- The values enveloped in a trace. `Send` envelops its argument as its first statement and
nothing else does, so these are the arguments of the calls of `Send`. -/
def sendCalls (t : List Event) : List Value :=
  t.filterMap (fun e => match e with
    | .envelop v => some v
    | _ => none)

/-- The envelopes written to a connection in a trace. -/
def writes (t : List Event) : List (ConnId × Envelope) :=
  t.filterMap (fun e => match e with
    | .writeJSON conn e => some (conn, e)
    | _ => none)

/-- The connections closed in a trace. -/
def closes (t : List Event) : List ConnId :=
  t.filterMap (fun e => match e with
    | .close conn => some conn
    | _ => none)

/-- The dial attempts in a trace. -/
def dials (t : List Event) : List String :=
  t.filterMap (fun e => match e with
    | .dial addr => some addr
    | _ => none)

/-- The reports logged in a trace. -/
def logs (t : List Event) : List (Level × List (String × FieldVal) × String) :=
  t.filterMap (fun e => match e with
    | .log level fields msg => some (level, fields, msg)
    | _ => none)

/-- The number of `ReadJSON` calls in a trace. -/
def readCount (t : List Event) : Nat :=
  (t.filter (fun e => match e with
    | .readJSON _ => true
    | _ => false)).length

/-- The messages for which a trace started `go c.handleResponse(v)`, in order. -/
def spawned (t : List Event) : List Msg :=
  t.filterMap (fun e => match e with
    | .goHandleResponse v => some v
    | _ => none)

/-! ## Facts about the map -/

theorem keys_insert (m : RoundHandlers) (k : Nat) (v : ConvoHandler) :
    (m.insert k v).keys = insert k m.keys := by
  ext x
  simp [Finmap.mem_keys, Finmap.mem_insert]

theorem lookup_erase_eq (m : RoundHandlers) (k x : Nat) :
    (m.erase k).lookup x = if x = k then none else m.lookup x := by
  by_cases hx : x = k
  · subst hx; simp
  · simp [hx, Finmap.lookup_erase_ne hx]

theorem erase_absent (m : RoundHandlers) (k : Nat) (h : m.lookup k = none) :
    m.erase k = m := by
  apply Finmap.ext_lookup
  intro x
  rw [lookup_erase_eq]
  split
  · next hx => subst hx; exact h.symm
  · rfl

/-! ## Facts about reading a trace -/

theorem handleCalls_append (a b : List Event) :
    handleCalls (a ++ b) = handleCalls a ++ handleCalls b := by
  simp [handleCalls, List.filterMap_append]

theorem nextCalls_append (a b : List Event) :
    nextCalls (a ++ b) = nextCalls a ++ nextCalls b := by
  simp [nextCalls, List.filterMap_append]

theorem sendCalls_append (a b : List Event) :
    sendCalls (a ++ b) = sendCalls a ++ sendCalls b := by
  simp [sendCalls, List.filterMap_append]

theorem closes_append (a b : List Event) : closes (a ++ b) = closes a ++ closes b := by
  simp [closes, List.filterMap_append]

theorem logs_append (a b : List Event) : logs (a ++ b) = logs a ++ logs b := by
  simp [logs, List.filterMap_append]

theorem spawned_append (a b : List Event) : spawned (a ++ b) = spawned a ++ spawned b := by
  simp [spawned, List.filterMap_append]

theorem readCount_append (a b : List Event) : readCount (a ++ b) = readCount a + readCount b := by
  simp [readCount, List.filter_append]

/-! ## Facts about `Send` and `Outcome` -/

theorem Send_client (env : Env) (c : Client) (v : Value) : (Send env c v).client = c := by
  unfold Send
  split
  · rfl
  · split
    · rfl
    · split
      · simp only [Outcome.after, Close]
        split <;> rfl
      · rfl

theorem Send_sendCalls (env : Env) (c : Client) (v : Value) :
    sendCalls (Send env c v).trace = [v] := by
  unfold Send
  split
  · simp [sendCalls]
  · split
    · simp [sendCalls]
    · next conn hws =>
      split
      · simp [Outcome.after, Close, hws, sendCalls]
      · simp [sendCalls]

theorem Send_no_handler_call (env : Env) (c : Client) (v : Value) :
    nextCalls (Send env c v).trace = [] ∧ handleCalls (Send env c v).trace = [] := by
  unfold Send
  split
  · simp [nextCalls, handleCalls]
  · split
    · simp [nextCalls, handleCalls]
    · next conn hws =>
      split
      · simp [Outcome.after, Close, hws, nextCalls, handleCalls]
      · simp [nextCalls, handleCalls]

theorem Send_returns_when_connected (env : Env) (c : Client) (v : Value) (conn : ConnId)
    (hws : c.ws = some conn) : (Send env c v).result = .returned () := by
  unfold Send
  split
  · rfl
  · simp only [hws]
    split
    · simp [Outcome.after, Close, hws]
    · rfl

theorem announce_routing_aux (env : Env) (c : Client) (h : HandlerId) (r : Nat)
    (hcfg : c.convoHandler = some h) :
    handleResponse env c (.announceConvoRound r)
      = Outcome.after [.mapWrite r (some h), .callNextConvoRequest h r]
          (Send env { c with roundHandlers := c.roundHandlers.insert r (some h) }
            (.convoRequest (env.NextConvoRequest h r))) := by
  simp [handleResponse, nextConvoRequest, Outcome.andThen, Outcome.after, hcfg]

/-! ## Facts about `claimRounds` and `readLoop` -/

theorem claimRounds_cons (env : Env) (c : Client) (round : Nat) (h : HandlerId)
    (rest : List (Nat × HandlerId)) :
    claimRounds env c ((round, h) :: rest)
      = Outcome.after
          [.setConvoHandler (some h), .mapWrite round (some h), .callNextConvoRequest h round]
          (claimRounds env
            { c with convoHandler := some h,
                     roundHandlers := c.roundHandlers.insert round (some h) } rest) := by
  simp [claimRounds, SetConvoHandler, nextConvoRequest, Outcome.andThen, Outcome.after]

theorem claimRounds_returns (env : Env) (steps : List (Nat × HandlerId)) (c : Client) :
    (claimRounds env c steps).result = .returned () := by
  induction steps generalizing c with
  | nil => rfl
  | cons s rest ih =>
      obtain ⟨round, h⟩ := s
      rw [claimRounds_cons]
      exact ih _

theorem claimRounds_keys (env : Env) (steps : List (Nat × HandlerId)) (c : Client) :
    (claimRounds env c steps).client.roundHandlers.keys
      = c.roundHandlers.keys ∪ (steps.map Prod.fst).toFinset := by
  induction steps generalizing c with
  | nil => simp [claimRounds]
  | cons s rest ih =>
      obtain ⟨round, h⟩ := s
      rw [claimRounds_cons]
      simp only [Outcome.after]
      rw [ih, keys_insert]
      ext x
      simp only [Finset.mem_union, Finset.mem_insert, List.map_cons, List.toFinset_cons]
      tauto

theorem claimRounds_frame (env : Env) (steps : List (Nat × HandlerId)) (c : Client) (r : Nat)
    (hr : r ∉ steps.map Prod.fst) :
    (claimRounds env c steps).client.roundHandlers.lookup r = c.roundHandlers.lookup r := by
  induction steps generalizing c with
  | nil => rfl
  | cons s rest ih =>
      obtain ⟨round, h⟩ := s
      simp only [List.map_cons, List.mem_cons, not_or] at hr
      rw [claimRounds_cons]
      simp only [Outcome.after]
      rw [ih _ hr.2]
      exact Finmap.lookup_insert_of_ne _ hr.1

theorem claimRounds_lookup (env : Env) (steps : List (Nat × HandlerId)) (c : Client)
    (hd : (steps.map Prod.fst).Nodup) (r : Nat) (h : HandlerId) (hm : (r, h) ∈ steps) :
    (claimRounds env c steps).client.roundHandlers.lookup r = some (some h) := by
  induction steps generalizing c with
  | nil => simp at hm
  | cons s rest ih =>
      obtain ⟨round, h0⟩ := s
      simp only [List.map_cons, List.nodup_cons] at hd
      rw [claimRounds_cons]
      simp only [Outcome.after]
      rcases List.mem_cons.mp hm with heq | hin
      · obtain ⟨rfl, rfl⟩ := Prod.mk.inj heq
        rw [claimRounds_frame env rest _ r hd.1]
        simp
      · exact ih _ hd.2 hin

theorem readLoop_ok_cons (env : Env) (c : Client) (conn : ConnId) (hws : c.ws = some conn)
    (e : Envelope) (rest : List (Except String Envelope)) :
    (readLoop env c (.ok e :: rest)).result = (readLoop env c rest).result ∧
    (readLoop env c (.ok e :: rest)).client = (readLoop env c rest).client ∧
    spawned (readLoop env c (.ok e :: rest)).trace
      = (dispatched env e).toList ++ spawned (readLoop env c rest).trace ∧
    logs (readLoop env c (.ok e :: rest)).trace
      = (openFailure env e).toList ++ logs (readLoop env c rest).trace ∧
    closes (readLoop env c (.ok e :: rest)).trace = closes (readLoop env c rest).trace ∧
    readCount (readLoop env c (.ok e :: rest)).trace
      = 1 + readCount (readLoop env c rest).trace := by
  rw [readLoop]
  simp only [hws]
  cases ho : env.Open e with
  | error err =>
      simp only [Outcome.after, spawned_append, logs_append, closes_append, readCount_append,
        dispatched, openFailure, ho]
      simp [spawned, logs, closes, readCount]
  | ok v =>
      simp only [Outcome.after, spawned_append, logs_append, closes_append, readCount_append,
        dispatched, openFailure, ho]
      simp [spawned, logs, closes, readCount]

/-! ## The claims -/

/-- C1. Registry round trip: from any client whose configured handler is `h` (whatever its
registry holds, a stale entry for `r` included), `nextConvoRequest` for round `r` leaves
`r` mapped to `h`; delivering a response for `r` then calls `h` with it, once, and returns;
delivering a second response for `r` right after calls no handler and reports
"round not found". -/
theorem registry_round_trip (env : Env) (c : Client) (r : Nat) (h : HandlerId)
    (p p2 : List Nat) (hcfg : c.convoHandler = some h) :
    let o1 := nextConvoRequest env c r
    let o2 := deliverConvoResponse o1.client { Round := r, payload := p }
    let o3 := deliverConvoResponse o2.client { Round := r, payload := p2 }
    o1.client.roundHandlers.lookup r = some (some h) ∧
    o2.trace = [.mapDelete r, .callHandleConvoResponse h { Round := r, payload := p }] ∧
    o2.result = .returned () ∧
    o3.trace = [.mapDelete r, .log .error [("round", .num r)] "round not found"] ∧
    handleCalls o3.trace = [] ∧
    o3.result = .returned () := by
  simp [nextConvoRequest, deliverConvoResponse, hcfg, handleCalls]

/-- C2. With no handler configured, `Connect` returns the error "no convo handler", performs
no effect at all (no dial in particular) and leaves the client as it was. -/
theorem connect_without_handler (env : Env) (c : Client) (hnil : c.convoHandler = none) :
    (Connect env c).result = .returned (some "no convo handler") ∧
    (Connect env c).trace = [] ∧
    dials (Connect env c).trace = [] ∧
    (Connect env c).client = c := by
  simp [Connect, hnil, dials]

/-- C5. A response whose round has no entry in the registry: `deliverConvoResponse` returns,
calls no handler, logs exactly one report ("round not found") and leaves the client, the
registry included, exactly as it was. -/
theorem deliver_unknown_round (c : Client) (resp : ConvoResponse)
    (habsent : c.roundHandlers.lookup resp.Round = none) :
    (deliverConvoResponse c resp).result = .returned () ∧
    handleCalls (deliverConvoResponse c resp).trace = [] ∧
    logs (deliverConvoResponse c resp).trace
      = [(.error, [("round", .num resp.Round)], "round not found")] ∧
    (deliverConvoResponse c resp).client.roundHandlers = c.roundHandlers ∧
    (deliverConvoResponse c resp).client = c := by
  have he := erase_absent c.roundHandlers resp.Round habsent
  simp [deliverConvoResponse, habsent, handleCalls, logs, he]

/-- C3. Routing of a round announcement: with `h` the configured handler, `handleResponse` on
an announcement of round `r` first writes `r ↦ h` into the registry, then calls
`h.NextConvoRequest(r)`, then runs `Send` on the request that call returned, and nothing
else. So the registry maps `r` to `h` afterwards, `NextConvoRequest` is called once, on `h`
for `r`, and `Send` is called once, with that request. -/
theorem announce_routing (env : Env) (c : Client) (h : HandlerId) (r : Nat)
    (hcfg : c.convoHandler = some h) :
    let o := handleResponse env c (.announceConvoRound r)
    let req := env.NextConvoRequest h r
    o.client.roundHandlers.lookup r = some (some h) ∧
    nextCalls o.trace = [(h, r)] ∧
    sendCalls o.trace = [.convoRequest req] ∧
    o = Outcome.after [.mapWrite r (some h), .callNextConvoRequest h r]
          (Send env { c with roundHandlers := c.roundHandlers.insert r (some h) }
            (.convoRequest req)) := by
  have key := announce_routing_aux env c h r hcfg
  simp only []
  rw [key]
  refine ⟨?_, ?_, ?_, rfl⟩
  · simp [Outcome.after, Send_client]
  · simp only [Outcome.after]
    rw [nextCalls_append, (Send_no_handler_call _ _ _).1]
    rfl
  · simp only [Outcome.after]
    rw [sendCalls_append, Send_sendCalls]
    rfl

/-- C4. A response goes to the handler that originated the round: with `h` the configured
handler, after an announcement of round `r` is handled and `SetConvoHandler(h2)` is called,
handling a response for round `r` returns, calls `h.HandleConvoResponse` with that response
and calls no other handler method; over the three steps together this is the only call of
`HandleConvoResponse`, so `h2`, when it is another handler than `h`, is not called; and `r`
has no entry in the registry afterwards. On a connected client the handling of the
announcement returns. -/
theorem response_routed_to_originator (env : Env) (c : Client) (h h2 : HandlerId) (r : Nat)
    (p : List Nat) (hcfg : c.convoHandler = some h) :
    let resp : ConvoResponse := { Round := r, payload := p }
    let o1 := handleResponse env c (.announceConvoRound r)
    let o2 := SetConvoHandler o1.client (some h2)
    let o3 := handleResponse env o2.client (.convoResponse resp)
    (∀ conn, c.ws = some conn → o1.result = .returned ()) ∧
    o3.result = .returned () ∧
    o3.trace = [.mapDelete r, .callHandleConvoResponse h resp] ∧
    handleCalls (o1.trace ++ o2.trace ++ o3.trace) = [(h, resp)] ∧
    (h2 ≠ h → ∀ x, (h2, x) ∉ handleCalls (o1.trace ++ o2.trace ++ o3.trace)) ∧
    o3.client.roundHandlers.lookup r = none ∧
    r ∉ o3.client.roundHandlers := by
  have key := (announce_routing_aux env c h r hcfg)
  simp only []
  rw [key]
  have hcl : (Outcome.after [.mapWrite r (some h), .callNextConvoRequest h r]
      (Send env { c with roundHandlers := c.roundHandlers.insert r (some h) }
        (.convoRequest (env.NextConvoRequest h r)))).client
      = { c with roundHandlers := c.roundHandlers.insert r (some h) } := by
    simp [Outcome.after, Send_client]
  rw [hcl]
  have h3 : handleResponse env
      (SetConvoHandler { c with roundHandlers := c.roundHandlers.insert r (some h) }
        (some h2)).client (.convoResponse { Round := r, payload := p })
      = { client := { c with convoHandler := some h2,
                             roundHandlers := (c.roundHandlers.insert r (some h)).erase r },
          trace := [.mapDelete r, .callHandleConvoResponse h { Round := r, payload := p }],
          result := .returned () } := by
    simp [handleResponse, deliverConvoResponse, SetConvoHandler]
  rw [h3]
  have hcalls : handleCalls
      ((Outcome.after [.mapWrite r (some h), .callNextConvoRequest h r]
        (Send env { c with roundHandlers := c.roundHandlers.insert r (some h) }
          (.convoRequest (env.NextConvoRequest h r)))).trace
        ++ (SetConvoHandler { c with roundHandlers := c.roundHandlers.insert r (some h) }
              (some h2)).trace
        ++ [.mapDelete r, .callHandleConvoResponse h { Round := r, payload := p }])
      = [(h, { Round := r, payload := p })] := by
    simp only [Outcome.after, handleCalls_append, (Send_no_handler_call _ _ _).2]
    simp [handleCalls, SetConvoHandler]
  refine ⟨?_, rfl, rfl, hcalls, ?_, ?_, ?_⟩
  · intro conn hws
    simp only [Outcome.after]
    exact Send_returns_when_connected env _ _ conn hws
  · intro hne x hx
    rw [hcalls] at hx
    simp at hx
    exact hne hx.1
  · simp
  · simp [← Finmap.lookup_eq_none]

/-- C6, as the code has it. On a connected client: when the write fails, `Send` closes the
connection, once; when enveloping fails, `Send` logs the failure, writes nothing and does not
close the connection; when both succeed the connection is not closed. In each case `Send`
returns and leaves the client record as it was. -/
theorem send_closes_on_write_failure_only (env : Env) (c : Client) (conn : ConnId) (v : Value)
    (hws : c.ws = some conn) :
    (∀ e err, env.Envelop v = .ok e → env.WriteJSON conn e = some err →
      closes (Send env c v).trace = [conn] ∧ writes (Send env c v).trace = [(conn, e)]) ∧
    (∀ err, env.Envelop v = .error err →
      closes (Send env c v).trace = [] ∧ writes (Send env c v).trace = [] ∧
      logs (Send env c v).trace
        = [(.error, [("bug", .bool true), ("call", .str "Envelop")], err)]) ∧
    (∀ e, env.Envelop v = .ok e → env.WriteJSON conn e = none →
      closes (Send env c v).trace = [] ∧ writes (Send env c v).trace = [(conn, e)]) ∧
    (Send env c v).result = .returned () ∧
    (Send env c v).client = c := by
  refine ⟨?_, ?_, ?_, Send_returns_when_connected env c v conn hws, Send_client env c v⟩
  · intro e err he hw
    simp [Send, he, hws, hw, Outcome.after, Close, closes, writes]
  · intro err he
    simp [Send, he, closes, writes, logs]
  · intro e he hw
    simp [Send, he, hws, hw, closes, writes]

/-- C9. Only a round announcement creates a registry entry: for a decoded message that is
not an announcement, every entry of the registry after `handleResponse` was there before,
with the same handler, the configured handler and the connection reference are unchanged,
`NextConvoRequest` is not called and nothing is sent. For a `BadRequestError` the client is
unchanged as a whole and the only effect is the one log line. -/
theorem only_announcement_registers (env : Env) (c : Client) (v : Msg)
    (hv : ∀ r, v ≠ .announceConvoRound r) :
    (∀ r hd, (handleResponse env c v).client.roundHandlers.lookup r = some hd →
      c.roundHandlers.lookup r = some hd) ∧
    (handleResponse env c v).client.convoHandler = c.convoHandler ∧
    (handleResponse env c v).client.ws = c.ws ∧
    nextCalls (handleResponse env c v).trace = [] ∧
    sendCalls (handleResponse env c v).trace = [] ∧
    writes (handleResponse env c v).trace = [] ∧
    (∀ t, v = .badRequestError t →
      handleResponse env c v
        = { client := c, trace := [.log .printf [] ("bad request error: " ++ t)],
            result := .returned () } ∧
      handleCalls (handleResponse env c v).trace = []) := by
  cases v with
  | badRequestError t =>
      simp [handleResponse, nextCalls, sendCalls, writes, handleCalls]
  | announceConvoRound r => exact absurd rfl (hv r)
  | convoResponse resp =>
      refine ⟨?_, ?_, ?_, ?_, ?_, ?_, ?_⟩
      · intro r hd hl
        have hl2 : (c.roundHandlers.erase resp.Round).lookup r = some hd := by
          simp only [handleResponse, deliverConvoResponse] at hl
          split at hl <;> exact hl
        rw [lookup_erase_eq] at hl2
        split at hl2
        · exact absurd hl2 (by simp)
        · exact hl2
      all_goals
        simp only [handleResponse, deliverConvoResponse]
        split <;> simp [nextCalls, sendCalls, writes]
  | other tag =>
      simp [handleResponse, nextCalls, sendCalls, writes]

/-- C7. The read loop on a finite inbound stream: on a connected client, with the reads
giving the envelopes `envs` and then a read failure, `readLoop` returns, leaving whatever
comes after the failure unread; it starts `handleResponse` for exactly the envelopes that
open, once each and in arrival order; it reports each envelope that fails to open and goes
on; it reads once per envelope and once more for the failure; it closes the connection
exactly once; it leaves the client record as it was. -/
theorem readLoop_dispatch (env : Env) (c : Client) (conn : ConnId) (hws : c.ws = some conn)
    (envs : List Envelope) (err : String) (rest : List (Except String Envelope)) :
    let o := readLoop env c (envs.map (fun e => Except.ok e) ++ Except.error err :: rest)
    o.result = .returned rest ∧
    spawned o.trace = envs.filterMap (dispatched env) ∧
    logs o.trace
      = envs.filterMap (openFailure env) ++ [(.debug, [("call", .str "ReadJSON")], err)] ∧
    closes o.trace = [conn] ∧
    readCount o.trace = envs.length + 1 ∧
    o.client = c := by
  induction envs with
  | nil =>
      simp [readLoop, hws, Close, Outcome.andThen, Outcome.after, spawned, logs, closes,
        readCount]
  | cons e es ih =>
      simp only [] at ih
      obtain ⟨ih1, ih2, ih3, ih4, ih5, ih6⟩ := ih
      obtain ⟨k1, k2, k3, k4, k5, k6⟩ := readLoop_ok_cons env c conn hws e
        (es.map (fun e => Except.ok e) ++ Except.error err :: rest)
      simp only [List.map_cons, List.cons_append]
      refine ⟨?_, ?_, ?_, ?_, ?_, ?_⟩
      · rw [k1, ih1]
      · rw [k3, ih2]
        cases hd : dispatched env e <;> simp [List.filterMap_cons, hd]
      · rw [k4, ih3]
        cases hf : openFailure env e <;> simp [List.filterMap_cons, hf]
      · rw [k5, ih4]
      · rw [k6, ih5, List.length_cons]
        omega
      · rw [k2, ih6]

/-- C8. Distinct claims do not disturb each other: from a fresh client, after claiming the
rounds of `steps` in the order given, each with its own handler configured, and the rounds
pairwise distinct, every claim has returned, the registry has exactly as many entries as
there were claims, its keys are the claimed rounds, and each claimed round maps to the
handler that was configured when it was claimed. -/
theorem distinct_claims (env : Env) (entryServer : String) (steps : List (Nat × HandlerId))
    (hd : (steps.map Prod.fst).Nodup) :
    let o := claimRounds env (NewClient entryServer) steps
    o.result = .returned () ∧
    o.client.roundHandlers.keys.card = steps.length ∧
    (∀ r, r ∈ o.client.roundHandlers ↔ r ∈ steps.map Prod.fst) ∧
    (∀ r h, (r, h) ∈ steps → o.client.roundHandlers.lookup r = some (some h)) := by
  have hk := claimRounds_keys env steps (NewClient entryServer)
  have hk0 : (NewClient entryServer).roundHandlers.keys = ∅ := by simp [NewClient]
  rw [hk0, Finset.empty_union] at hk
  refine ⟨claimRounds_returns env steps _, ?_, ?_, ?_⟩
  · rw [hk, List.toFinset_card_of_nodup hd, List.length_map]
  · intro r
    rw [← Finmap.mem_keys, hk, List.mem_toFinset]
  · intro r h hm
    exact claimRounds_lookup env steps _ hd r h hm

/-! ## The claims at concrete inputs -/

/-- C1 at a client holding a stale entry for round 7: after the claim the response for
round 7 reaches handler 4, not the stale handler 9. -/
theorem registry_round_trip_witness :
    clientStale.convoHandler = some 4 ∧
    clientStale.roundHandlers.lookup 7 = some (some 9) ∧
    (deliverConvoResponse (nextConvoRequest envOk clientStale 7).client
        { Round := 7, payload := [1] }).trace
      = [.mapDelete 7, .callHandleConvoResponse 4 { Round := 7, payload := [1] }] :=
  ⟨rfl, by simp [clientStale],
    (registry_round_trip envOk clientStale 7 4 [1] [2] rfl).2.1⟩

/-- C2 at a fresh client. -/
theorem connect_without_handler_witness :
    (NewClient "ws://entry").convoHandler = none ∧
    (Connect envOk (NewClient "ws://entry")).result = .returned (some "no convo handler") ∧
    (Connect envOk (NewClient "ws://entry")).trace = [] :=
  ⟨rfl, (connect_without_handler envOk (NewClient "ws://entry") rfl).1,
    (connect_without_handler envOk (NewClient "ws://entry") rfl).2.1⟩

/-- C3 at a connected client, round 7. -/
theorem announce_routing_witness :
    clientConnected.convoHandler = some 4 ∧
    nextCalls (handleResponse envOk clientConnected (.announceConvoRound 7)).trace = [(4, 7)] ∧
    sendCalls (handleResponse envOk clientConnected (.announceConvoRound 7)).trace
      = [.convoRequest (some { payload := [4, 7] })] :=
  ⟨rfl, (announce_routing envOk clientConnected 4 7 rfl).2.1,
    (announce_routing envOk clientConnected 4 7 rfl).2.2.1⟩

/-- C4 at a connected client, round 7, with handler 5 configured after the announcement. -/
theorem response_routed_to_originator_witness :
    clientConnected.convoHandler = some 4 ∧
    (handleResponse envOk
        (SetConvoHandler
          (handleResponse envOk clientConnected (.announceConvoRound 7)).client (some 5)).client
        (.convoResponse { Round := 7, payload := [3] })).trace
      = [.mapDelete 7, .callHandleConvoResponse 4 { Round := 7, payload := [3] }] :=
  ⟨rfl, (response_routed_to_originator envOk clientConnected 4 5 7 [3] rfl).2.2.1⟩

/-- C5 at a client with an empty registry. -/
theorem deliver_unknown_round_witness :
    clientConnected.roundHandlers.lookup 7 = none ∧
    (deliverConvoResponse clientConnected { Round := 7, payload := [] }).client
      = clientConnected :=
  ⟨rfl, (deliver_unknown_round clientConnected { Round := 7, payload := [] } rfl).2.2.2.2⟩

/-- C6 as stated fails: on a connected client, enveloping fails and `Send` logs the failure
and returns; the connection is not closed. -/
theorem send_envelop_failure_leaves_connection_open :
    clientConnected.ws = some 1 ∧
    envEnvelopFails.Envelop (.other 0) = .error "json: unsupported type" ∧
    (Send envEnvelopFails clientConnected (.other 0)).trace
      = [.envelop (.other 0),
         .log .error [("bug", .bool true), ("call", .str "Envelop")]
           "json: unsupported type"] ∧
    closes (Send envEnvelopFails clientConnected (.other 0)).trace = [] ∧
    1 ∉ closes (Send envEnvelopFails clientConnected (.other 0)).trace := by
  refine ⟨rfl, rfl, rfl, rfl, ?_⟩
  simp [Send, envEnvelopFails, closes]

/-- C6 as the code has it, at a connected client whose write fails: the connection is
closed once. -/
theorem send_closes_on_write_failure_only_witness :
    clientConnected.ws = some 1 ∧
    closes (Send envWriteFails clientConnected (.other 0)).trace = [1] :=
  ⟨rfl, ((send_closes_on_write_failure_only envWriteFails clientConnected 1 (.other 0) rfl).1
    { data := [2, 0] } "i/o timeout" rfl rfl).1⟩

/-- C7 on a stream of an announcement, an envelope that does not open, a response, then a
read failure, then one more envelope: the two messages are dispatched in order and the last
envelope stays unread. -/
theorem readLoop_dispatch_witness :
    clientConnected.ws = some 1 ∧
    (readLoop envOk clientConnected
        ([{ data := [10, 7] }, { data := [99] }, { data := [11, 7, 5] }].map
            (fun e => Except.ok e)
          ++ Except.error "EOF" :: [Except.ok { data := [12] }])).result
      = .returned [Except.ok { data := [12] }] ∧
    spawned (readLoop envOk clientConnected
        ([{ data := [10, 7] }, { data := [99] }, { data := [11, 7, 5] }].map
            (fun e => Except.ok e)
          ++ Except.error "EOF" :: [Except.ok { data := [12] }])).trace
      = [.announceConvoRound 7, .convoResponse { Round := 7, payload := [5] }] :=
  ⟨rfl,
    (readLoop_dispatch envOk clientConnected 1 rfl
      [{ data := [10, 7] }, { data := [99] }, { data := [11, 7, 5] }] "EOF"
      [Except.ok { data := [12] }]).1,
    (readLoop_dispatch envOk clientConnected 1 rfl
      [{ data := [10, 7] }, { data := [99] }, { data := [11, 7, 5] }] "EOF"
      [Except.ok { data := [12] }]).2.1⟩

/-- C8 at three distinct rounds claimed out of order under two handlers. -/
theorem distinct_claims_witness :
    ([(7, 4), (3, 5), (9, 4)].map Prod.fst).Nodup ∧
    (claimRounds envOk (NewClient "ws://entry")
        [(7, 4), (3, 5), (9, 4)]).client.roundHandlers.keys.card = 3 ∧
    (claimRounds envOk (NewClient "ws://entry")
        [(7, 4), (3, 5), (9, 4)]).client.roundHandlers.lookup 3 = some (some 5) :=
  ⟨by decide,
    (distinct_claims envOk "ws://entry" [(7, 4), (3, 5), (9, 4)] (by decide)).2.1,
    (distinct_claims envOk "ws://entry" [(7, 4), (3, 5), (9, 4)] (by decide)).2.2.2 3 5
      (by decide)⟩

/-- C9 at a `BadRequestError` on a client with one registry entry. -/
theorem only_announcement_registers_witness :
    (∀ r, Msg.badRequestError "bad request" ≠ Msg.announceConvoRound r) ∧
    (handleResponse envOk clientStale (.badRequestError "bad request")).client.convoHandler
      = clientStale.convoHandler ∧
    sendCalls (handleResponse envOk clientStale (.badRequestError "bad request")).trace = [] :=
  ⟨fun _ hne => Msg.noConfusion hne,
    (only_announcement_registers envOk clientStale (.badRequestError "bad request")
      (fun _ hne => Msg.noConfusion hne)).2.1,
    (only_announcement_registers envOk clientStale (.badRequestError "bad request")
      (fun _ hne => Msg.noConfusion hne)).2.2.2.2.1⟩

end Vuvuzela
